import Mathlib

/-!
Verification of the medication-reminder bot (bot.py, handlers.py, database.py).

The development shallowly embeds the reminder scheduling and dosage-depletion
engine: the SQLite store (database.py), the per-minute sweep of
`scheduler_setup` and the dispatch function `send_reminder` (bot.py), and the
validated creation flow of handlers.py.  Python machine details are modelled
as follows: `float(...)` parsing of decimal literals becomes an exact `Option ℚ`
parser, timezone conversion (`pytz` + `astimezone`) becomes a UTC-offset
environment, and every `await`-able failure point (store access, message
transport) is driven by explicit failure oracles in an `Env` record, with
Python exceptions modelled by `Except String`.
-/

namespace TgBot

/-- Numeric value of a digit list (helper for the parsers). -/
def natOfDigitList (l : List Char) : Nat :=
  l.foldl (fun a c => a * 10 + (c.toNat - 48)) 0

/-- Numeric value of a nonempty all-digit string (helper for the parsers). -/
def natOfDigits (s : String) : Nat :=
  natOfDigitList s.data

/-- Model of Python `str.isdigit()` as used by `get_medicine_quantity`:
nonempty and all decimal digits. -/
def isDigits (s : String) : Bool :=
  !s.data.isEmpty && s.data.all Char.isDigit

/-- Splitting a character list at every occurrence of the separator `c`;
the accumulator holds the current piece reversed. -/
def splitCharAux (c : Char) : List Char → List Char → List (List Char)
  | [], acc => [acc.reverse]
  | d :: ds, acc =>
      if d == c then acc.reverse :: splitCharAux c ds []
      else splitCharAux c ds (d :: acc)

/-- Model of Python `s.split(c)` for a one-character separator: the empty
string yields `[""]`, and every separator occurrence opens a new piece. -/
def pySplit (c : Char) (s : String) : List String :=
  (splitCharAux c s.data []).map String.mk

/-- Model of Python `s.strip()`: remove leading and trailing whitespace. -/
def pyStrip (s : String) : String :=
  ⟨((s.data.dropWhile Char.isWhitespace).reverse.dropWhile Char.isWhitespace).reverse⟩

/-- Model of Python `float(s)` restricted to the decimal literals this bot
handles: optional surrounding whitespace, optional sign, an integer part
and/or a fractional part separated by a single dot.  Returns the exact
rational value; `none` models `float` raising `ValueError`. -/
def parseFloat? (s : String) : Option ℚ :=
  let t := pyStrip s
  let neg : Bool := t.data.head? == some '-'
  let u : List Char :=
    match t.data with
    | c :: rest => if c == '-' || c == '+' then rest else t.data
    | [] => []
  match splitCharAux '.' u [] with
  | [ip] =>
      if !ip.isEmpty && ip.all Char.isDigit then
        some (mkRat (if neg then -(natOfDigitList ip : Int) else (natOfDigitList ip : Int)) 1)
      else none
  | [ip, fp] =>
      if (!ip.isEmpty || !fp.isEmpty) && ip.all Char.isDigit && fp.all Char.isDigit then
        let scaled : Nat := natOfDigitList ip * 10 ^ fp.length + natOfDigitList fp
        some (mkRat (if neg then -(scaled : Int) else (scaled : Int)) (10 ^ fp.length))
      else none
  | _ => none

/-- Model of Python `s.rstrip(c)` for a single-character set: drop every
trailing occurrence of `c`. -/
def rstripChar (s : String) (c : Char) : String :=
  ⟨(s.data.reverse.dropWhile (fun d => d == c)).reverse⟩

/-- bot.py, send_reminder:
`medicine_dosage.rstrip('0').rstrip('.') if '.' in medicine_dosage else medicine_dosage`. -/
def trimDosage (s : String) : String :=
  if s.data.contains '.' then rstripChar (rstripChar s '0') '.' else s

/-- Model of `datetime.strptime(rt, "%H:%M").time()` reduced to the
(hour, minute) pair the sweep uses: one or two digits per field, hour < 24,
minute < 60; `none` models `strptime` raising `ValueError`. -/
def parseTimeHM (s : String) : Option (Nat × Nat) :=
  match pySplit ':' s with
  | [h, m] =>
      if !h.data.isEmpty && h.data.length ≤ 2 && h.data.all Char.isDigit &&
         !m.data.isEmpty && m.data.length ≤ 2 && m.data.all Char.isDigit then
        let hv := natOfDigits h
        let mv := natOfDigits m
        if hv < 24 && mv < 60 then some (hv, mv) else none
      else none
  | _ => none

/-- One row of the `medicines` table (database.py, create_tables).
`remainingQuantity` is a rational because SQLite stores the result of
`remaining_quantity - ?` with a float argument as a real. -/
structure Medicine where
  medicineId : Nat
  userId : Nat
  name : String
  dosage : String
  dosageUnit : String
  dosesQuantity : Nat
  reminderTime : String
  remainingQuantity : ℚ
deriving Repr, DecidableEq

/-- The database: the `users` table (user_id, timezone) and the `medicines`
table. -/
structure Store where
  users : List (Nat × String)
  medicines : List Medicine
deriving Repr, DecidableEq

/-- database.py `get_user_timezone`: `SELECT timezone FROM users WHERE user_id = ?`. -/
def getUserTimezone (s : Store) (uid : Nat) : Option String :=
  (s.users.find? (fun p => p.1 == uid)).map (fun p => p.2)

/-- database.py `add_medicine`: insert a row, `remaining_quantity` initialised
to `doses_quantity`. -/
def addMedicine (s : Store) (mid uid : Nat) (name dosage dosageUnit : String)
    (dosesQuantity : Nat) (reminderTime : String) : Store :=
  { s with medicines :=
      s.medicines ++ [⟨mid, uid, name, dosage, dosageUnit, dosesQuantity,
                       reminderTime, (dosesQuantity : ℚ)⟩] }

/-- database.py `get_medicine_by_id`: `SELECT ... WHERE medicine_id = ?`. -/
def getMedicineById (s : Store) (mid : Nat) : Option Medicine :=
  s.medicines.find? (fun m => m.medicineId == mid)

/-- database.py `decrement_medicine_quantity`:
`UPDATE medicines SET remaining_quantity = remaining_quantity - ? WHERE medicine_id = ?`. -/
def decrementMedicineQuantity (s : Store) (mid : Nat) (amount : ℚ) : Store :=
  { s with medicines := s.medicines.map (fun m =>
      if m.medicineId == mid then { m with remainingQuantity := m.remainingQuantity - amount }
      else m) }

/-- database.py `delete_medicine`: `DELETE FROM medicines WHERE medicine_id = ?`. -/
def deleteMedicine (s : Store) (mid : Nat) : Store :=
  { s with medicines := s.medicines.filter (fun m => !(m.medicineId == mid)) }

/-- The external collaborators of the sweep, as failure oracles.
`listFails` / `tzFails`: the corresponding `await`ed database call raises
(store unavailability).  `sendFails owner text`: `bot.send_message` raises
for that message.  `tzOffset` is the pytz collaborator: the UTC offset in
minutes of a timezone identifier (the sweep only uses the local wall-clock
hour and minute that `astimezone` yields). -/
structure Env where
  listFails : Bool
  tzFails : Nat → Bool
  sendFails : Nat → String → Bool
  tzOffset : String → Int

/-- Local wall-clock (hour, minute) of a UTC instant (in seconds) at a given
UTC offset in minutes — the `(now_user_tz.hour, now_user_tz.minute)` pair of
the sweep; seconds are truncated by the division. -/
def localHM (nowUtcSec : Nat) (offMin : Int) : Nat × Nat :=
  let m := (((nowUtcSec / 60 : Nat) : Int) + offMin).emod 1440
  (m.toNat / 60, m.toNat % 60)

/-- A due (record, dose-index) pair as fired by the matching loop of
`scheduler_setup`; `index` is the loop variable `index`, `dose` the selected
`dose_to_send`. -/
structure DueEvent where
  recordId : Nat
  owner : Nat
  name : String
  index : Nat
  dose : String
  unit : String
deriving Repr, DecidableEq

/-- bot.py, scheduler_setup:
`dosages[index] if index < len(dosages) else dosages[-1] if dosages else "не указана"`. -/
def doseToSend (dosages : List String) (index : Nat) : String :=
  if index < dosages.length then dosages.getD index "не указана"
  else dosages.getLast?.getD "не указана"

/-- bot.py, send_reminder: the reminder text
`f"⏰ Напоминание! Примите {dosage_str} {unit_text} {medicine_name} 💊"`. -/
def reminderMessage (e : DueEvent) : String :=
  "⏰ Напоминание! Примите " ++ trimDosage e.dose ++ " " ++ e.unit ++ " " ++ e.name ++ " 💊"

/-- bot.py, send_reminder: the depletion warning
`f"💊 Внимание! Лекарство '{medicine_name}' закончилось. Пожалуйста, пополните запасы. ⏳"`. -/
def depletionMessage (e : DueEvent) : String :=
  "💊 Внимание! Лекарство " ++ "\x27" ++ e.name ++ "\x27" ++ " закончилось. Пожалуйста, пополните запасы. ⏳"

/-- bot.py `send_reminder(bot, user_id, medicine_id, medicine_name,
medicine_dosage, medicine_dosage_unit)`.  The whole body sits in a
`try/except` that only logs, so the function never raises: it returns the
updated store and the messages actually delivered.  Control flow, in source
order: compute `dosage_str`; `dosage_value = float(medicine_dosage)` — an
unparsable dose raises `ValueError` here, aborting the event before anything
is sent; send the reminder (a transport failure likewise aborts the rest);
re-fetch; if `remaining > 0` decrement by `float(medicine_dosage)` (the inner
`try` falls back to `1`, dead code on this path since the earlier `float`
already succeeded); re-fetch; if now `<= 0`, send the depletion warning and
delete.  If `remaining <= 0` already, only log. -/
def sendReminder (env : Env) (st : Store) (e : DueEvent) : Store × List (Nat × String) :=
  match parseFloat? e.dose with
  | none => (st, [])
  | some _ =>
    if env.sendFails e.owner (reminderMessage e) then (st, [])
    else
      let sent := [(e.owner, reminderMessage e)]
      match getMedicineById st e.recordId with
      | none => (st, sent)
      | some mi =>
        if mi.remainingQuantity > 0 then
          let dosageVal : ℚ := (parseFloat? e.dose).getD 1
          let s1 := decrementMedicineQuantity st e.recordId dosageVal
          match getMedicineById s1 e.recordId with
          | some upd =>
            if upd.remainingQuantity ≤ 0 then
              if env.sendFails e.owner (depletionMessage e) then (s1, sent)
              else (deleteMedicine s1 e.recordId, sent ++ [(e.owner, depletionMessage e)])
            else (s1, sent)
          | none => (s1, sent)
        else (st, sent)

/-- Fire `send_reminder` for each due event in order, threading the store. -/
def dispatchEvents (env : Env) : Store → List DueEvent → Store × List (Nat × String)
  | st, [] => (st, [])
  | st, e :: rest =>
      let r1 := sendReminder env st e
      let r2 := dispatchEvents env r1.1 rest
      (r2.1, r1.2 ++ r2.2)

/-- The inner `for index, reminder_time in enumerate(reminder_times)` loop:
the indices (starting at `i`) whose (hour, minute) equals the local
(hour, minute). -/
def matchTimes (lh lm : Nat) : Nat → List (Nat × Nat) → List Nat
  | _, [] => []
  | i, t :: ts =>
      (if lh == t.1 && lm == t.2 then [i] else []) ++ matchTimes lh lm (i + 1) ts

/-- The due events the inner `for index, reminder_time in enumerate(...)`
loop fires for one record at one instant: one per index whose parsed
(hour, minute) equals the local (hour, minute). -/
def recordEvents (m : Medicine) (nowUtcSec : Nat) (off : Int)
    (reminderTimes : List (Nat × Nat)) : List DueEvent :=
  let dosages := (pySplit ',' m.dosage).map pyStrip
  let lhm := localHM nowUtcSec off
  (matchTimes lhm.1 lhm.2 0 reminderTimes).map (fun i =>
    ⟨m.medicineId, m.userId, m.name, i, doseToSend dosages i, m.dosageUnit⟩)

/-- The per-record body of the sweep loop of `scheduler_setup`: timezone
lookup (raising if the store call fails, skipping with a warning if absent),
`strptime` parsing of every reminder time (raising on a malformed one),
dosage splitting, local-time conversion, then the index-matching loop.  The
matching loop reads only the snapshot fields and `now`, never the store, so
it is phase-split here: the due events are computed first (`recordEvents`)
and then dispatched in order, which fires exactly the same `send_reminder`
calls in the same order as the interleaved source loop. -/
def processMedicine (env : Env) (nowUtcSec : Nat) (st : Store) (m : Medicine) :
    Except String (Store × List (Nat × String) × List DueEvent) :=
  if env.tzFails m.userId then .error "database error in get_user_timezone" else
  match getUserTimezone st m.userId with
  | none => .ok (st, [], [])
  | some tzStr =>
    match ((pySplit ',' m.reminderTime).map pyStrip).mapM parseTimeHM with
    | none => .error "ValueError in strptime"
    | some reminderTimes =>
      let evs := recordEvents m nowUtcSec (env.tzOffset tzStr) reminderTimes
      let r := dispatchEvents env st evs
      .ok (r.1, r.2, evs)

/-- The `for ... in medicines` loop over the snapshot taken at the top of the
sweep, threading the store through the dispatches. -/
def sweepMeds (env : Env) (nowUtcSec : Nat) :
    Store → List Medicine → Except String (Store × List (Nat × String) × List DueEvent)
  | st, [] => .ok (st, [], [])
  | st, m :: rest =>
    match processMedicine env nowUtcSec st m with
    | .error err => .error err
    | .ok r1 =>
      match sweepMeds env nowUtcSec r1.1 rest with
      | .error err => .error err
      | .ok r2 => .ok (r2.1, r1.2.1 ++ r2.2.1, r1.2.2 ++ r2.2.2)

/-- One iteration of the `while True` body of `scheduler_setup`: fetch the
full snapshot with `get_all_medicines_with_time` (raising if that store call
fails) and run the per-record loop.  The body has no `try/except`, so any
raise propagates as the `.error` of this function. -/
def sweepOnce (env : Env) (s : Store) (nowUtcSec : Nat) :
    Except String (Store × List (Nat × String) × List DueEvent) :=
  if env.listFails then .error "database error in get_all_medicines_with_time" else
  sweepMeds env nowUtcSec s s.medicines

/-- The scheduler loop run over a list of sweep instants: each iteration
sweeps and then sleeps 60 s.  `scheduler_setup` wraps the body in no handler,
so an exception from one sweep terminates the loop — subsequent instants are
never processed. -/
def schedulerRun (env : Env) : Store → List Nat → Except String Store
  | s, [] => .ok s
  | s, t :: ts =>
    match sweepOnce env s t with
    | .error err => .error err
    | .ok r => schedulerRun env r.1 ts

/-- handlers.py, get_medicine_dosage: every comma-separated, stripped entry
must pass `float(...)`. -/
def validDosages (dosagesText : String) : Bool :=
  ((pySplit ',' dosagesText).map pyStrip).all (fun d => (parseFloat? d).isSome)

/-- handlers.py, get_dosage_unit: the unit button set
`{"Таблетки", "гр", "мл"}`. -/
def validUnit (u : String) : Bool :=
  u == "Таблетки" || u == "гр" || u == "мл"

/-- handlers.py, get_medicine_time: the anchored regex
`^([0-9]|[01][0-9]|2[0-3]):[0-5][0-9]$` on one time entry. -/
def validTimeEntry (t : String) : Bool :=
  match t.data with
  | [h, c, m1, m2] =>
      h.isDigit && c == ':' && Nat.ble 48 m1.toNat && Nat.ble m1.toNat 53 && m2.isDigit
  | [h1, h2, c, m1, m2] =>
      ((h1 == '0' || h1 == '1') && h2.isDigit ||
        h1 == '2' && Nat.ble 48 h2.toNat && Nat.ble h2.toNat 51) &&
      c == ':' && Nat.ble 48 m1.toNat && Nat.ble m1.toNat 53 && m2.isDigit
  | _ => false

/-- handlers.py, get_medicine_time: every comma-separated, stripped entry
matches the time regex. -/
def validTimes (timesText : String) : Bool :=
  ((pySplit ',' timesText).map pyStrip).all validTimeEntry

/-- The accepted path of the conversational creation flow (handlers.py):
`get_medicine_dosage` requires every dose to parse as a float,
`get_dosage_unit` requires a unit button, `get_medicine_quantity` requires
`isdigit`, and `get_medicine_time` requires every time to match the regex
and the dose and time lists to have equal length; only then is
`add_medicine` called.  Any failed check leaves the store unchanged. -/
def creationFlow (s : Store) (mid uid : Nat)
    (name dosagesText unit quantityText timesText : String) : Store :=
  if validDosages dosagesText && validUnit unit && isDigits quantityText &&
     validTimes timesText &&
     ((pySplit ',' dosagesText).map pyStrip).length ==
       ((pySplit ',' timesText).map pyStrip).length then
    addMedicine s mid uid name dosagesText unit (natOfDigits quantityText) timesText
  else s

/-! ### Concrete fixtures used by witnesses and counterexamples -/

/-- All collaborators healthy; every timezone identifier resolves to UTC+3:00. -/
def envOk : Env := ⟨false, fun _ => false, fun _ _ => false, fun _ => 180⟩

/-- `get_all_medicines_with_time` raises on every call. -/
def envListFail : Env := ⟨true, fun _ => false, fun _ _ => false, fun _ => 180⟩

/-- `bot.send_message` raises on every call. -/
def envSendFail : Env := ⟨false, fun _ => false, fun _ _ => true, fun _ => 180⟩

/-- A stored medicine: one reminder at 08:00 local, dose "1", 2 doses left. -/
def medA : Medicine := ⟨1, 10, "Аспирин", "1", "Таблетки", 2, "08:00", 2⟩

/-- The same medicine with `remaining_quantity` already 0. -/
def medZero : Medicine := ⟨1, 10, "Аспирин", "1", "Таблетки", 2, "08:00", 0⟩

/-- A store with user 10 at UTC+3:00 owning `medA`. -/
def storeA : Store := ⟨[(10, "Etc/GMT-3")], [medA]⟩

/-- A store with user 10 at UTC+3:00 owning `medZero`. -/
def storeZero : Store := ⟨[(10, "Etc/GMT-3")], [medZero]⟩

/-- A due event for `medA` as the matcher fires it. -/
def eventA : DueEvent := ⟨1, 10, "Аспирин", 0, "1", "Таблетки"⟩

/-- A due event whose dose string does not parse as a float. -/
def eventBad : DueEvent := ⟨1, 10, "Аспирин", 0, "abc", "Таблетки"⟩

/-- A medicine whose owner (user 99) has no timezone row. -/
def medOrphan : Medicine := ⟨2, 99, "Ибупрофен", "1", "мл", 5, "09:00", 5⟩

/-- The `medA` medicine on its last dose: `remaining_quantity` 1, dose "1". -/
def medLast : Medicine := ⟨1, 10, "Аспирин", "1", "Таблетки", 2, "08:00", 1⟩

/-- A store with user 10 at UTC+3:00 owning `medLast`. -/
def storeLast : Store := ⟨[(10, "Etc/GMT-3")], [medLast]⟩

/-! ### Store lemmas -/

lemma getMedicineById_decrement (s : Store) (mid : Nat) (v : ℚ) :
    getMedicineById (decrementMedicineQuantity s mid v) mid =
      (getMedicineById s mid).map
        (fun m => { m with remainingQuantity := m.remainingQuantity - v }) := by
  simp only [getMedicineById, decrementMedicineQuantity]
  induction s.medicines with
  | nil => rfl
  | cons m ms ih =>
    rw [List.map_cons]
    by_cases h : (m.medicineId == mid) = true
    · rw [if_pos h, List.find?_cons, List.find?_cons]
      simp only [h]
      rfl
    · rw [if_neg h, List.find?_cons, List.find?_cons]
      rw [Bool.not_eq_true] at h
      simp only [h]
      exact ih

lemma getMedicineById_delete (s : Store) (mid : Nat) :
    getMedicineById (deleteMedicine s mid) mid = none := by
  simp only [getMedicineById, deleteMedicine, List.find?_eq_none]
  intro m hm
  rcases List.mem_filter.mp hm with ⟨_, hkeep⟩
  intro hbeq
  rw [hbeq] at hkeep
  exact absurd hkeep (by simp)

lemma decrement_users (s : Store) (mid : Nat) (v : ℚ) :
    (decrementMedicineQuantity s mid v).users = s.users := rfl

lemma delete_users (s : Store) (mid : Nat) :
    (deleteMedicine s mid).users = s.users := rfl

/-- `send_reminder` either leaves the medicines table alone, decrements one
record, or decrements and then deletes it. -/
lemma sendReminder_store_cases (env : Env) (st : Store) (e : DueEvent) :
    (sendReminder env st e).1 = st ∨
    ∃ v : ℚ, (sendReminder env st e).1 = decrementMedicineQuantity st e.recordId v ∨
      (sendReminder env st e).1 =
        deleteMedicine (decrementMedicineQuantity st e.recordId v) e.recordId := by
  unfold sendReminder
  dsimp only
  repeat' split
  all_goals first
    | exact Or.inl rfl
    | exact Or.inr ⟨_, Or.inl rfl⟩
    | exact Or.inr ⟨_, Or.inr rfl⟩

lemma sendReminder_users (env : Env) (st : Store) (e : DueEvent) :
    (sendReminder env st e).1.users = st.users := by
  rcases sendReminder_store_cases env st e with h | ⟨v, h | h⟩ <;> rw [h] <;> rfl

lemma dispatchEvents_users (env : Env) :
    ∀ (evs : List DueEvent) (st : Store), (dispatchEvents env st evs).1.users = st.users := by
  intro evs
  induction evs with
  | nil => intro st; rfl
  | cons e rest ih =>
    intro st
    show (dispatchEvents env (sendReminder env st e).1 rest).1.users = st.users
    rw [ih, sendReminder_users]

lemma getUserTimezone_eq_of_users {s1 s2 : Store} (h : s1.users = s2.users) (uid : Nat) :
    getUserTimezone s1 uid = getUserTimezone s2 uid := by
  simp [getUserTimezone, h]

lemma mem_matchTimes (lh lm : Nat) :
    ∀ (ts : List (Nat × Nat)) (k i : Nat),
      i ∈ matchTimes lh lm k ts ↔ ∃ j, ts.get? j = some (lh, lm) ∧ i = k + j := by
  intro ts
  induction ts with
  | nil => intro k i; simp [matchTimes]
  | cons t ts ih =>
    intro k i
    simp only [matchTimes, List.mem_append]
    rw [ih (k + 1) i]
    by_cases h : (lh == t.1 && lm == t.2) = true
    · have ht : t = (lh, lm) := by
        rcases t with ⟨a, b⟩
        rw [Bool.and_eq_true, beq_iff_eq, beq_iff_eq] at h
        simp [h.1, h.2]
      subst ht
      simp only [if_pos h, List.mem_singleton]
      constructor
      · rintro (rfl | ⟨j, hj, rfl⟩)
        · exact ⟨0, by simp, by omega⟩
        · exact ⟨j + 1, by simpa using hj, by omega⟩
      · rintro ⟨j, hj, rfl⟩
        cases j with
        | zero => left; omega
        | succ j => right; exact ⟨j, by simpa using hj, by omega⟩
    · have ht : (lh, lm) ≠ t := by
        rintro rfl
        simp at h
      simp only [if_neg h, List.not_mem_nil, false_or]
      constructor
      · rintro ⟨j, hj, rfl⟩
        exact ⟨j + 1, by simpa using hj, by omega⟩
      · rintro ⟨j, hj, rfl⟩
        cases j with
        | zero =>
            rw [List.get?_cons_zero, Option.some_inj] at hj
            exact absurd hj.symm ht
        | succ j => exact ⟨j, by simpa using hj, by omega⟩

lemma matchTimes_eq_nil (lh lm : Nat) :
    ∀ (ts : List (Nat × Nat)) (k : Nat), (lh, lm) ∉ ts → matchTimes lh lm k ts = [] := by
  intro ts
  induction ts with
  | nil => intro k _; rfl
  | cons t ts ih =>
    intro k h
    simp only [List.mem_cons, not_or] at h
    have hc : (lh == t.1 && lm == t.2) = false := by
      rcases t with ⟨a, b⟩
      by_contra hb
      rw [Bool.not_eq_false, Bool.and_eq_true, beq_iff_eq, beq_iff_eq] at hb
      exact h.1 (by simp [hb.1, hb.2])
    simp [matchTimes, hc, ih (k + 1) h.2]

lemma processMedicine_ok_users (env : Env) (now : Nat) (st : Store) (m : Medicine)
    (r : Store × List (Nat × String) × List DueEvent)
    (h : processMedicine env now st m = .ok r) : r.1.users = st.users := by
  unfold processMedicine at h
  split at h
  · exact absurd h (by simp)
  · split at h
    · rw [Except.ok.injEq] at h
      rw [← h]
    · split at h
      · exact absurd h (by simp)
      · rw [Except.ok.injEq] at h
        rw [← h]
        exact dispatchEvents_users env _ st

lemma processMedicine_ok_exists (env : Env) (now : Nat) (st : Store) (m : Medicine)
    (hf : env.tzFails m.userId = false)
    (hp : ∀ tz, getUserTimezone st m.userId = some tz →
        (((pySplit ',' m.reminderTime).map pyStrip).mapM parseTimeHM).isSome = true) :
    ∃ r, processMedicine env now st m = .ok r := by
  unfold processMedicine
  rw [hf]
  simp only [Bool.false_eq_true, if_false]
  rcases htz : getUserTimezone st m.userId with _ | tz
  · exact ⟨_, rfl⟩
  · rcases hts : ((pySplit ',' m.reminderTime).map pyStrip).mapM parseTimeHM with _ | ts
    · have := hp tz htz
      rw [hts] at this
      simp at this
    · exact ⟨_, rfl⟩

lemma processMedicine_noop (env : Env) (now : Nat) (st : Store) (m : Medicine)
    (hf : env.tzFails m.userId = false)
    (h : ∀ tz, getUserTimezone st m.userId = some tz →
      ∃ ts, ((pySplit ',' m.reminderTime).map pyStrip).mapM parseTimeHM = some ts ∧
        localHM now (env.tzOffset tz) ∉ ts) :
    processMedicine env now st m = .ok (st, [], []) := by
  unfold processMedicine
  rw [hf]
  simp only [Bool.false_eq_true, if_false]
  rcases htz : getUserTimezone st m.userId with _ | tz
  · rfl
  · obtain ⟨ts, hts, hnm⟩ := h tz htz
    rw [hts]
    have hml : matchTimes (localHM now (env.tzOffset tz)).1 (localHM now (env.tzOffset tz)).2
        0 ts = [] := by
      refine matchTimes_eq_nil _ _ ts 0 ?hnm
      simpa using hnm
    simp [recordEvents, hml, dispatchEvents]

lemma sweepMeds_noop (env : Env) (now : Nat) (s : Store) :
    ∀ meds : List Medicine,
      (∀ m ∈ meds, env.tzFails m.userId = false ∧
        ∀ tz, getUserTimezone s m.userId = some tz →
          ∃ ts, ((pySplit ',' m.reminderTime).map pyStrip).mapM parseTimeHM = some ts ∧
            localHM now (env.tzOffset tz) ∉ ts) →
      sweepMeds env now s meds = .ok (s, [], []) := by
  intro meds
  induction meds with
  | nil => intro _; rfl
  | cons m rest ih =>
    intro hall
    have h1 := hall m (List.mem_cons_self m rest)
    have hpm := processMedicine_noop env now s m h1.1 h1.2
    have hrest := ih (fun m' hm' => hall m' (List.mem_cons_of_mem m hm'))
    simp [sweepMeds, hpm, hrest]

lemma sweepMeds_ok_exists (env : Env) (now : Nat) (s : Store) :
    ∀ (meds : List Medicine) (st : Store), st.users = s.users →
      (∀ m ∈ meds, env.tzFails m.userId = false ∧
        ∀ tz, getUserTimezone s m.userId = some tz →
          (((pySplit ',' m.reminderTime).map pyStrip).mapM parseTimeHM).isSome = true) →
      ∃ r, sweepMeds env now st meds = .ok r := by
  intro meds
  induction meds with
  | nil => intro st _ _; exact ⟨_, rfl⟩
  | cons m rest ih =>
    intro st hu hall
    have h1 := hall m (List.mem_cons_self m rest)
    have hp : ∀ tz, getUserTimezone st m.userId = some tz →
        (((pySplit ',' m.reminderTime).map pyStrip).mapM parseTimeHM).isSome = true := by
      intro tz htz
      exact h1.2 tz (by rwa [getUserTimezone_eq_of_users hu] at htz)
    obtain ⟨r1, hr1⟩ := processMedicine_ok_exists env now st m h1.1 hp
    have hu1 : r1.1.users = s.users := by
      rw [processMedicine_ok_users env now st m r1 hr1, hu]
    obtain ⟨r2, hr2⟩ := ih r1.1 hu1 (fun m' hm' => hall m' (List.mem_cons_of_mem m hm'))
    refine ⟨(r2.1, r1.2.1 ++ r2.2.1, r1.2.2 ++ r2.2.2), ?goal⟩
    simp [sweepMeds, hr1, hr2]

/-! ### Claim theorems -/

/-- Claim C4 (code evidence): in `send_reminder`, a due event whose dose
string cannot be interpreted as a number is aborted before anything happens —
the stray `dosage_value = float(medicine_dosage)` raises `ValueError` before
`send_message`, the outer `except` logs it, and neither a notification nor a
store mutation takes place.  The decrement-by-1 fallback and its warning are
unreachable on this path. -/
theorem unparsable_dose_aborts_event (env : Env) (st : Store) (e : DueEvent)
    (h : parseFloat? e.dose = none) : sendReminder env st e = (st, []) := by
  unfold sendReminder
  rw [h]

theorem unparsable_dose_aborts_event_witness :
    parseFloat? eventBad.dose = none ∧ sendReminder envOk storeA eventBad = (storeA, []) :=
  ⟨rfl, unparsable_dose_aborts_event envOk storeA eventBad rfl⟩

/-- Claim C10: if sending the reminder notification raises, the outer
`except` of `send_reminder` catches it before the re-fetch, decrement and
deletion steps are reached, so the store is left unchanged for that event
and no message is delivered. -/
theorem send_failure_no_mutation (env : Env) (st : Store) (e : DueEvent) (v : ℚ)
    (hv : parseFloat? e.dose = some v)
    (hfail : env.sendFails e.owner (reminderMessage e) = true) :
    sendReminder env st e = (st, []) := by
  unfold sendReminder
  rw [hv]
  simp [hfail]

theorem send_failure_no_mutation_witness :
    parseFloat? eventA.dose = some 1 ∧
    envSendFail.sendFails eventA.owner (reminderMessage eventA) = true ∧
    sendReminder envSendFail storeA eventA = (storeA, []) :=
  ⟨by decide, rfl, send_failure_no_mutation envSendFail storeA eventA 1 (by decide) rfl⟩

/-- Claim C7: the reminder text states the dose amount trimmed of trailing
zero/decimal-point noise (`"1.50"` → `"1.5"`, `"2.0"` → `"2"`, a string
without a dot unchanged), together with the dosage unit and the medicine
name: whenever the transport delivers, the first message sent by
`send_reminder` is exactly that text. -/
theorem reminder_text_content :
    trimDosage "1.50" = "1.5" ∧ trimDosage "2.0" = "2" ∧
    (∀ d : String, d.data.contains '.' = false → trimDosage d = d) ∧
    (∀ (env : Env) (st : Store) (e : DueEvent) (v : ℚ),
      parseFloat? e.dose = some v →
      env.sendFails e.owner (reminderMessage e) = false →
      (sendReminder env st e).2.head? = some (e.owner,
        "⏰ Напоминание! Примите " ++ trimDosage e.dose ++ " " ++ e.unit ++ " "
          ++ e.name ++ " 💊")) := by
  refine ⟨rfl, rfl, ?nodot, ?msg⟩
  · intro d hd
    unfold trimDosage
    rw [hd]
    simp
  · intro env st e v hv hs
    unfold sendReminder
    rw [hv]
    simp only [hs, Bool.false_eq_true, if_false]
    repeat' split
    all_goals rfl

theorem reminder_text_content_witness :
    trimDosage "10" = "10" ∧
    (sendReminder envOk storeA eventA).2.head? = some (eventA.owner,
      "⏰ Напоминание! Примите " ++ trimDosage eventA.dose ++ " " ++ eventA.unit ++ " "
        ++ eventA.name ++ " 💊") :=
  ⟨reminder_text_content.2.2.1 "10" rfl,
   reminder_text_content.2.2.2 envOk storeA eventA 1 (by decide) rfl⟩

/-- Claim C8: a record whose owner has no timezone row is skipped with a
logged warning: the sweep over a store holding that record emits no due
event for it, performs no store mutation, and raises nothing. -/
theorem missing_timezone_skips_record (env : Env) (users : List (Nat × String))
    (m : Medicine) (now : Nat)
    (hlist : env.listFails = false) (htzf : env.tzFails m.userId = false)
    (habs : getUserTimezone ⟨users, [m]⟩ m.userId = none) :
    sweepOnce env ⟨users, [m]⟩ now = .ok (⟨users, [m]⟩, [], []) := by
  have h1 : processMedicine env now ⟨users, [m]⟩ m = .ok (⟨users, [m]⟩, [], []) := by
    unfold processMedicine
    rw [htzf, habs]
    rfl
  unfold sweepOnce
  rw [hlist]
  simp [sweepMeds, h1]

theorem missing_timezone_skips_record_witness :
    getUserTimezone ⟨[(10, "Etc/GMT-3")], [medOrphan]⟩ medOrphan.userId = none ∧
    sweepOnce envOk ⟨[(10, "Etc/GMT-3")], [medOrphan]⟩ 18000 =
      .ok (⟨[(10, "Etc/GMT-3")], [medOrphan]⟩, [], []) :=
  ⟨rfl, missing_timezone_skips_record envOk [(10, "Etc/GMT-3")] medOrphan 18000 rfl rfl rfl⟩

/-- Claim C9: a sweep at an instant at which no record's reminder times
match the current local (hour, minute) of its owner produces zero due
events, delivers nothing and leaves the store exactly as it was. -/
theorem noop_sweep_no_mutation (env : Env) (s : Store) (now : Nat)
    (hlist : env.listFails = false)
    (h : ∀ m ∈ s.medicines, env.tzFails m.userId = false ∧
      ∀ tz, getUserTimezone s m.userId = some tz →
        ∃ ts, ((pySplit ',' m.reminderTime).map pyStrip).mapM parseTimeHM = some ts ∧
          localHM now (env.tzOffset tz) ∉ ts) :
    sweepOnce env s now = .ok (s, [], []) := by
  unfold sweepOnce
  rw [hlist]
  simp only [Bool.false_eq_true, if_false]
  exact sweepMeds_noop env now s s.medicines h

theorem noop_sweep_no_mutation_witness :
    sweepOnce envOk storeA 17940 = .ok (storeA, [], []) := by
  refine noop_sweep_no_mutation envOk storeA 17940 rfl ?h
  intro m hm
  have hmA : m = medA := by
    simpa [storeA] using hm
  subst hmA
  refine ⟨rfl, ?tzcase⟩
  intro tz htz
  have h0 : getUserTimezone storeA medA.userId = some "Etc/GMT-3" := rfl
  rw [h0, Option.some_inj] at htz
  subst htz
  exact ⟨[(8, 0)], by decide, by decide⟩

/-- Claim C2 (amended): the `while True` body of `scheduler_setup` has no
exception handler, so a store failure while listing medicines (or looking
up a timezone, or an unparsable stored time) propagates and terminates the
scheduler loop; only failures inside the per-event dispatch
(`send_reminder`) are caught, so transport failures never prevent a sweep
from completing. -/
theorem sweep_failure_semantics (env : Env) (s : Store) (now : Nat) :
    (env.listFails = true →
      sweepOnce env s now = .error "database error in get_all_medicines_with_time") ∧
    (env.listFails = false →
      (∀ m ∈ s.medicines, env.tzFails m.userId = false ∧
        ∀ tz, getUserTimezone s m.userId = some tz →
          (((pySplit ',' m.reminderTime).map pyStrip).mapM parseTimeHM).isSome = true) →
      ∃ r, sweepOnce env s now = .ok r) := by
  constructor
  · intro h
    unfold sweepOnce
    rw [h]
    rfl
  · intro h hall
    unfold sweepOnce
    rw [h]
    simp only [Bool.false_eq_true, if_false]
    exact sweepMeds_ok_exists env now s s.medicines s rfl hall

theorem sweep_failure_semantics_witness :
    sweepOnce envListFail storeA 18000 =
      .error "database error in get_all_medicines_with_time" ∧
    ∃ r, sweepOnce envSendFail storeA 18000 = .ok r :=
  ⟨(sweep_failure_semantics envListFail storeA 18000).1 rfl,
   (sweep_failure_semantics envSendFail storeA 18000).2 rfl (by
      intro m hm
      have hmA : m = medA := by simpa [storeA] using hm
      subst hmA
      exact ⟨rfl, fun tz _ => by decide⟩)⟩

/-- Claim C1: for a record whose owner has a timezone row, the sweep emits
a due event for reminder index `i` exactly when the local (hour, minute) of
the sweep instant in the owner's timezone equals the parsed
`reminderTimes[i]` — both components equal, no tolerance window. -/
theorem matcher_fires_iff_exact_minute (env : Env) (users : List (Nat × String))
    (m : Medicine) (now : Nat) (tz : String) (ts : List (Nat × Nat))
    (hlist : env.listFails = false) (htzf : env.tzFails m.userId = false)
    (htz : getUserTimezone ⟨users, [m]⟩ m.userId = some tz)
    (hts : ((pySplit ',' m.reminderTime).map pyStrip).mapM parseTimeHM = some ts) :
    ∃ r, sweepOnce env ⟨users, [m]⟩ now = .ok r ∧
      ∀ i : Nat, (∃ e ∈ r.2.2, e.index = i) ↔
        ts.get? i = some (localHM now (env.tzOffset tz)) := by
  have hpm : processMedicine env now ⟨users, [m]⟩ m = .ok
      ((dispatchEvents env ⟨users, [m]⟩ (recordEvents m now (env.tzOffset tz) ts)).1,
       (dispatchEvents env ⟨users, [m]⟩ (recordEvents m now (env.tzOffset tz) ts)).2,
       recordEvents m now (env.tzOffset tz) ts) := by
    unfold processMedicine
    rw [htzf, htz, hts]
    rfl
  have hsw : sweepOnce env ⟨users, [m]⟩ now = .ok
      ((dispatchEvents env ⟨users, [m]⟩ (recordEvents m now (env.tzOffset tz) ts)).1,
       (dispatchEvents env ⟨users, [m]⟩ (recordEvents m now (env.tzOffset tz) ts)).2 ++ [],
       recordEvents m now (env.tzOffset tz) ts ++ []) := by
    unfold sweepOnce
    rw [hlist]
    show sweepMeds env now ⟨users, [m]⟩ [m] = _
    simp only [sweepMeds, hpm]
  refine ⟨_, hsw, ?hiff⟩
  intro i
  simp only [List.append_nil, recordEvents, List.mem_map]
  constructor
  · rintro ⟨e, ⟨j, hj, rfl⟩, hidx⟩
    obtain ⟨j2, hj2, hj2i⟩ := (mem_matchTimes _ _ ts 0 j).mp hj
    have hji : j = i := hidx
    have hij2 : i = j2 := by omega
    subst hij2
    rw [Prod.mk.eta] at hj2
    exact hj2
  · intro hget
    refine ⟨⟨m.medicineId, m.userId, m.name, i,
      doseToSend ((pySplit ',' m.dosage).map pyStrip) i, m.dosageUnit⟩, ⟨i, ?hmem, rfl⟩, rfl⟩
    refine (mem_matchTimes _ _ ts 0 i).mpr ⟨i, ?hg, by omega⟩
    rw [Prod.mk.eta]
    exact hget

theorem matcher_fires_iff_exact_minute_witness :
    (∃ r, sweepOnce envOk storeZero 18000 = .ok r ∧
      ∀ i : Nat, (∃ e ∈ r.2.2, e.index = i) ↔
        [((8 : Nat), (0 : Nat))].get? i = some (localHM 18000 (envOk.tzOffset "Etc/GMT-3"))) ∧
    (∃ r, sweepOnce envOk storeZero 18000 = .ok r ∧ r.2.2.length = 1) ∧
    (∃ r, sweepOnce envOk storeZero 17940 = .ok r ∧ r.2.2 = []) ∧
    (∃ r, sweepOnce envOk storeZero 18060 = .ok r ∧ r.2.2 = []) :=
  ⟨matcher_fires_iff_exact_minute envOk [(10, "Etc/GMT-3")] medZero 18000 "Etc/GMT-3"
      [(8, 0)] rfl rfl rfl (by decide),
   ⟨(storeZero, [(10, "⏰ Напоминание! Примите 1 Таблетки Аспирин 💊")],
      [⟨1, 10, "Аспирин", 0, "1", "Таблетки"⟩]), rfl, rfl⟩,
   ⟨(storeZero, [], []), rfl, rfl⟩,
   ⟨(storeZero, [], []), rfl, rfl⟩⟩

/-- Claim C2 (counterexample to the claim as stated): with the listing call
raising at every iteration, the scheduler loop does not catch, log and
continue — the error propagates out of the first sweep and the loop
terminates, never reaching the second interval. -/
theorem store_failure_terminates_loop :
    schedulerRun envListFail storeA [17940, 18000] =
      .error "database error in get_all_medicines_with_time" := rfl

/-- Claim C3 (counterexample to the claim as stated): a record whose
`remaining_quantity` is already 0 when its reminder fires is only logged by
`send_reminder` — the depletion branch runs only after a decrement, so the
record survives the sweep unchanged and is still returned by
`get_medicine_by_id` afterwards.  (Such records arise because creation
accepts quantity "0" and because a failed depletion-warning send skips the
delete.) -/
theorem depleted_record_survives_sweep :
    sweepOnce envOk storeZero 18000 =
      .ok (storeZero, [(10, "⏰ Напоминание! Примите 1 Таблетки Аспирин 💊")],
           [⟨1, 10, "Аспирин", 0, "1", "Таблетки"⟩]) ∧
    getMedicineById storeZero 1 = some medZero ∧ medZero.remainingQuantity ≤ 0 :=
  ⟨rfl, rfl, by decide⟩

/-- Claim C3 (amended): when the pre-decrement quantity is positive, the
post-decrement re-fetch shows `remaining_quantity <= 0`, and the
depletion-warning send succeeds, `send_reminder` sends the warning and then
deletes the record, which is afterwards absent; but a record whose
`remaining_quantity` is already `<= 0` when dispatched is left in place
(only logged), so such records can be observed by later sweeps. -/
theorem depletion_after_decrement (env : Env) (st : Store) (e : DueEvent)
    (mi : Medicine) (v : ℚ)
    (hmi : getMedicineById st e.recordId = some mi)
    (hv : parseFloat? e.dose = some v)
    (hsend : env.sendFails e.owner (reminderMessage e) = false) :
    (0 < mi.remainingQuantity → mi.remainingQuantity - v ≤ 0 →
      env.sendFails e.owner (depletionMessage e) = false →
      sendReminder env st e =
        (deleteMedicine (decrementMedicineQuantity st e.recordId v) e.recordId,
         [(e.owner, reminderMessage e), (e.owner, depletionMessage e)]) ∧
      getMedicineById
        (deleteMedicine (decrementMedicineQuantity st e.recordId v) e.recordId)
        e.recordId = none) ∧
    (mi.remainingQuantity ≤ 0 →
      sendReminder env st e = (st, [(e.owner, reminderMessage e)])) := by
  constructor
  · intro hpos hzero hsend2
    have hupd : getMedicineById (decrementMedicineQuantity st e.recordId v) e.recordId =
        some { mi with remainingQuantity := mi.remainingQuantity - v } := by
      rw [getMedicineById_decrement, hmi]
      rfl
    refine ⟨?main, getMedicineById_delete _ _⟩
    unfold sendReminder
    rw [hv]
    simp only [Option.getD_some, hsend, Bool.false_eq_true, if_false, hmi, hupd]
    rw [if_pos hpos]
    rw [if_pos hzero, hsend2]
    rfl
  · intro hneg
    unfold sendReminder
    rw [hv]
    simp only [hsend, Bool.false_eq_true, if_false, hmi]
    rw [if_neg (not_lt.mpr hneg)]

theorem depletion_after_decrement_witness :
    (sendReminder envOk storeLast eventA =
      (deleteMedicine (decrementMedicineQuantity storeLast 1 (mkRat 1 1)) 1,
       [(10, reminderMessage eventA), (10, depletionMessage eventA)]) ∧
     getMedicineById (deleteMedicine (decrementMedicineQuantity storeLast 1 (mkRat 1 1)) 1) 1
       = none) ∧
    sendReminder envOk storeZero eventA = (storeZero, [(10, reminderMessage eventA)]) :=
  ⟨(depletion_after_decrement envOk storeLast eventA medLast (mkRat 1 1)
      rfl (by decide) rfl).1 (by decide)
      (by
        show (1 : ℚ) - mkRat 1 1 ≤ 0
        rw [(by decide : mkRat 1 1 = (1 : ℚ))]
        norm_num) rfl,
   (depletion_after_decrement envOk storeZero eventA medZero (mkRat 1 1)
      rfl (by decide) rfl).2 (by decide)⟩

/-- Claim C5 (counterexample to the claim as stated): the creation flow's
dose validation only checks `float(...)` succeeds, so the dose "0" — not a
positive value — passes every check and a record is stored. -/
theorem creation_accepts_zero_dose :
    creationFlow ⟨[(10, "Etc/GMT-3")], []⟩ 1 10 "Аспирин" "0" "гр" "5" "08:00" =
      ⟨[(10, "Etc/GMT-3")], [⟨1, 10, "Аспирин", "0", "гр", 5, "08:00", 5⟩]⟩ ∧
    parseFloat? "0" = some 0 :=
  ⟨by decide, by decide⟩

/-- Claim C5 (amended): creation validates dose entries only for
float-parseability (plus the unit button, integer quantity, HH:MM times and
equal list lengths); any input passing those checks — including zero or
negative dose values — is stored via `add_medicine`. -/
theorem creation_checks_only_parseability (s : Store) (mid uid : Nat)
    (name dosagesText unit quantityText timesText : String)
    (hd : validDosages dosagesText = true) (hu : validUnit unit = true)
    (hq : isDigits quantityText = true) (ht : validTimes timesText = true)
    (hl : ((pySplit ',' dosagesText).map pyStrip).length =
          ((pySplit ',' timesText).map pyStrip).length) :
    creationFlow s mid uid name dosagesText unit quantityText timesText =
      addMedicine s mid uid name dosagesText unit (natOfDigits quantityText) timesText := by
  unfold creationFlow
  rw [hd, hu, hq, ht]
  simp [hl]

theorem creation_checks_only_parseability_witness :
    creationFlow ⟨[], []⟩ 7 10 "Барбовал" "0, -1" "мл" "3" "08:00, 20:00" =
      addMedicine ⟨[], []⟩ 7 10 "Барбовал" "0, -1" "мл" 3 "08:00, 20:00" :=
  creation_checks_only_parseability ⟨[], []⟩ 7 10 "Барбовал" "0, -1" "мл" "3" "08:00, 20:00"
    (by decide) rfl rfl (by decide) (by decide)

/-- Number of dose entries of a record, as the sweep splits them. -/
def doseSlots (m : Medicine) : Nat :=
  ((pySplit ',' m.dosage).map pyStrip).length

/-- Number of reminder-time entries of a record, as the sweep splits them. -/
def timeSlots (m : Medicine) : Nat :=
  ((pySplit ',' m.reminderTime).map pyStrip).length

/-- Every record of the second store has the dosage and reminder-time
strings of some record of the first: the sweep only decrements quantities
or deletes rows, never edits these two columns. -/
def keepsSlots (s t : Store) : Prop :=
  ∀ m' ∈ t.medicines, ∃ m ∈ s.medicines,
    m'.dosage = m.dosage ∧ m'.reminderTime = m.reminderTime

lemma keepsSlots_refl (s : Store) : keepsSlots s s :=
  fun m' h => ⟨m', h, rfl, rfl⟩

lemma keepsSlots_trans {a b c : Store} (h1 : keepsSlots a b) (h2 : keepsSlots b c) :
    keepsSlots a c := by
  intro m' hm'
  obtain ⟨mb, hb, e1, e2⟩ := h2 m' hm'
  obtain ⟨ma, ha, f1, f2⟩ := h1 mb hb
  exact ⟨ma, ha, e1.trans f1, e2.trans f2⟩

lemma keepsSlots_decrement (s : Store) (mid : Nat) (v : ℚ) :
    keepsSlots s (decrementMedicineQuantity s mid v) := by
  intro m' hm'
  simp only [decrementMedicineQuantity, List.mem_map] at hm'
  obtain ⟨m, hm, hfm⟩ := hm'
  refine ⟨m, hm, ?d, ?t⟩
  · rw [← hfm]
    by_cases h : (m.medicineId == mid) = true <;> simp [h]
  · rw [← hfm]
    by_cases h : (m.medicineId == mid) = true <;> simp [h]

lemma keepsSlots_delete (s : Store) (mid : Nat) : keepsSlots s (deleteMedicine s mid) :=
  fun m' hm' => ⟨m', (List.mem_filter.mp hm').1, rfl, rfl⟩

lemma keepsSlots_sendReminder (env : Env) (st : Store) (e : DueEvent) :
    keepsSlots st (sendReminder env st e).1 := by
  rcases sendReminder_store_cases env st e with h | ⟨v, h | h⟩ <;> rw [h]
  · exact keepsSlots_refl st
  · exact keepsSlots_decrement st e.recordId v
  · exact keepsSlots_trans (keepsSlots_decrement st e.recordId v) (keepsSlots_delete _ _)

lemma keepsSlots_dispatchEvents (env : Env) :
    ∀ (evs : List DueEvent) (st : Store), keepsSlots st (dispatchEvents env st evs).1 := by
  intro evs
  induction evs with
  | nil => intro st; exact keepsSlots_refl st
  | cons e rest ih =>
    intro st
    show keepsSlots st (dispatchEvents env (sendReminder env st e).1 rest).1
    exact keepsSlots_trans (keepsSlots_sendReminder env st e) (ih _)

lemma keepsSlots_processMedicine (env : Env) (now : Nat) (st : Store) (m : Medicine)
    (r : Store × List (Nat × String) × List DueEvent)
    (h : processMedicine env now st m = .ok r) : keepsSlots st r.1 := by
  unfold processMedicine at h
  split at h
  · exact absurd h (by simp)
  · split at h
    · rw [Except.ok.injEq] at h
      rw [← h]
      exact keepsSlots_refl st
    · split at h
      · exact absurd h (by simp)
      · rw [Except.ok.injEq] at h
        rw [← h]
        exact keepsSlots_dispatchEvents env _ st

lemma keepsSlots_sweepMeds (env : Env) (now : Nat) :
    ∀ (meds : List Medicine) (st : Store) (r : Store × List (Nat × String) × List DueEvent),
      sweepMeds env now st meds = .ok r → keepsSlots st r.1 := by
  intro meds
  induction meds with
  | nil =>
    intro st r h
    simp only [sweepMeds, Except.ok.injEq] at h
    rw [← h]
    exact keepsSlots_refl st
  | cons m rest ih =>
    intro st r h
    simp only [sweepMeds] at h
    split at h
    · exact absurd h (by simp)
    · split at h
      · exact absurd h (by simp)
      · rename_i x1 r1 hr1 x2 r2 hr2
        rw [Except.ok.injEq] at h
        rw [← h]
        exact keepsSlots_trans (keepsSlots_processMedicine env now st m r1 hr1) (ih r1.1 r2 hr2)

/-- Claim C6: `len(doseAmounts) == len(reminderTimes)` holds for every
stored record: the creation flow rejects mismatched lengths (store
unchanged), any record it does store satisfies the equality, and a sweep
never edits the dosage or reminder-time columns, so the equality is
preserved for every surviving record. -/
theorem dose_time_length_invariant :
    (∀ (s : Store) (mid uid : Nat) (name dt unit qt tt : String),
      ((pySplit ',' dt).map pyStrip).length ≠ ((pySplit ',' tt).map pyStrip).length →
      creationFlow s mid uid name dt unit qt tt = s) ∧
    (∀ (s : Store) (mid uid : Nat) (name dt unit qt tt : String),
      (∀ m ∈ s.medicines, doseSlots m = timeSlots m) →
      ∀ m ∈ (creationFlow s mid uid name dt unit qt tt).medicines,
        doseSlots m = timeSlots m) ∧
    (∀ (env : Env) (s : Store) (now : Nat)
      (r : Store × List (Nat × String) × List DueEvent),
      (∀ m ∈ s.medicines, doseSlots m = timeSlots m) →
      sweepOnce env s now = .ok r →
      ∀ m ∈ r.1.medicines, doseSlots m = timeSlots m) := by
  refine ⟨?creationRejects, ?creationInv, ?sweepInv⟩
  · intro s mid uid name dt unit qt tt h
    have hb : (((pySplit ',' dt).map pyStrip).length ==
        ((pySplit ',' tt).map pyStrip).length) = false :=
      beq_eq_false_iff_ne.mpr h
    unfold creationFlow
    simp only [hb, Bool.and_false, Bool.false_eq_true, if_false]
  · intro s mid uid name dt unit qt tt hinv m hm
    unfold creationFlow at hm
    split at hm
    · rename_i hcond
      simp only [addMedicine, List.mem_append, List.mem_singleton] at hm
      rcases hm with hm | hm
      · exact hinv m hm
      · subst hm
        have hlen : (((pySplit ',' dt).map pyStrip).length ==
            ((pySplit ',' tt).map pyStrip).length) = true := by
          repeat rw [Bool.and_eq_true] at hcond
          exact hcond.2
        simp only [doseSlots, timeSlots]
        exact beq_iff_eq.mp hlen
    · exact hinv m hm
  · intro env s now r hinv hsw m hm
    unfold sweepOnce at hsw
    split at hsw
    · exact absurd hsw (by simp)
    · have hks := keepsSlots_sweepMeds env now s.medicines s r hsw
      obtain ⟨m0, hm0, e1, e2⟩ := hks m hm
      simp only [doseSlots, timeSlots, e1, e2]
      exact hinv m0 hm0

theorem dose_time_length_invariant_witness :
    creationFlow ⟨[], []⟩ 1 10 "Аспирин" "1, 2" "гр" "5" "08:00" = ⟨[], []⟩ ∧
    (∀ m ∈ (creationFlow ⟨[], []⟩ 1 10 "Аспирин" "1" "гр" "5" "08:00").medicines,
      doseSlots m = timeSlots m) ∧
    (∀ m ∈ storeZero.medicines, doseSlots m = timeSlots m) :=
  ⟨dose_time_length_invariant.1 ⟨[], []⟩ 1 10 "Аспирин" "1, 2" "гр" "5" "08:00" (by decide),
   dose_time_length_invariant.2.1 ⟨[], []⟩ 1 10 "Аспирин" "1" "гр" "5" "08:00"
     (by intro m hm; exact absurd hm (by simp)),
   dose_time_length_invariant.2.2 envOk storeZero 18000
     (storeZero, [(10, "⏰ Напоминание! Примите 1 Таблетки Аспирин 💊")],
      [⟨1, 10, "Аспирин", 0, "1", "Таблетки"⟩])
     (by decide) rfl⟩

end TgBot
